import Mathlib

/-!
Shallow embedding of the erda-agent enrichment pipeline and probe registry
(src/pkg/plugins/protocols/rpc/rpc.go and
src/pkg/plugins/protocols/http/meta/provider.go), together with theorems
about the behaviour of the embedded functions.
-/

namespace ErdaAgent

/-! ## Go map[string]string model

Go maps are modelled as association lists where a write conses onto the
front, so the first matching key is the most recent write.  Reading an
absent key yields the zero value `""`, as in Go. -/

abbrev Tags := List (String × String)

/-- Write a key: the most recent write shadows earlier ones. -/
def tset (t : Tags) (k v : String) : Tags := (k, v) :: t

/-- Look up a key; `none` when the key was never written. -/
def tlookup : Tags → String → Option String
  | [], _ => none
  | (k', v) :: t, k => if k' = k then some v else tlookup t k

/-- Go map read: absent keys read as the empty string. -/
def tget (t : Tags) (k : String) : String := (tlookup t k).getD ""

/-- A pod as seen by the enrichment code: labels, the msp.erda.cloud
annotation map, UID and host IP (the only fields the converters read). -/
structure Pod where
  labels : Tags
  anns : Tags
  uid : String
  hostIP : String
deriving DecidableEq

/-- Read a pod label, Go map semantics. -/
def labelGet (p : Pod) (k : String) : String := tget p.labels k

/-- Read a pod annotation from the annotation map, Go map semantics. -/
def annGet (p : Pod) (k : String) : String := tget p.anns k

/-- A service; the converters only inspect its runtime type, never its
fields, so identity data suffices. -/
structure Service where
  nsName : String
  svcName : String
deriving DecidableEq

/-- The kprobe helper interface (Workload Directory contract, spec §4.A):
IP-keyed pod and service lookups where absence is an ordinary outcome. -/
structure KprobeEnv where
  getPodByUID : String → Option Pod
  getService : String → Option Service

/-- The outbound metric record (metric.Metric). -/
structure Metric where
  name : String
  measurement : String
  timestamp : Int
  orgName : String
  tags : Tags
  fields : List (String × Nat)
deriving DecidableEq

/-! ## Regular-expression engine

A small backtracking matcher with leftmost-first (Perl-style) semantics,
matching Go regexp submatch semantics for the pattern used in rpc.go.
Greedy `star` tries the longer match first; `reSearch` tries start
positions from the left.  Fuel bounds recursion depth and is chosen
amply for the inputs considered. -/

inductive RE where
  | cls (p : Char → Bool)
  | cat (a b : RE)
  | star (a : RE)
  | plus (a : RE)
  | group (idx : Nat) (a : RE)

abbrev Caps := List (Nat × String)

/-- Backtracking matcher in continuation-passing style.  The continuation
receives the unconsumed input and the captures recorded so far. -/
def reMatch : Nat → RE → List Char → Caps →
    (List Char → Caps → Option (List Char × Caps)) → Option (List Char × Caps)
  | 0, _, _, _, _ => none
  | _ + 1, RE.cls p, s, caps, k =>
    match s with
    | [] => none
    | c :: rest => if p c then k rest caps else none
  | fuel + 1, RE.cat a b, s, caps, k =>
    reMatch fuel a s caps (fun s1 c1 => reMatch fuel b s1 c1 k)
  | fuel + 1, RE.star a, s, caps, k =>
    (reMatch fuel a s caps (fun s1 c1 =>
      if s1.length < s.length then reMatch fuel (RE.star a) s1 c1 k else none)).orElse
      (fun _ => k s caps)
  | fuel + 1, RE.plus a, s, caps, k =>
    reMatch fuel a s caps (fun s1 c1 => reMatch fuel (RE.star a) s1 c1 k)
  | fuel + 1, RE.group i a, s, caps, k =>
    reMatch fuel a s caps (fun s1 c1 =>
      k s1 ((i, String.mk (s.take (s.length - s1.length))) :: c1))

/-- Leftmost search: try to match at each start position from the left;
return the suffix where the match starts, the rest after the match, and
the captures. -/
def reSearch (fuel : Nat) (r : RE) : List Char → Option (List Char × List Char × Caps)
  | [] =>
    match reMatch fuel r [] [] (fun rest caps => some (rest, caps)) with
    | some (rest, caps) => some ([], rest, caps)
    | none => none
  | c :: t =>
    match reMatch fuel r (c :: t) [] (fun rest caps => some (rest, caps)) with
    | some (rest, caps) => some (c :: t, rest, caps)
    | none => reSearch fuel r t

/-- Read a capture group; groups that did not participate read as "". -/
def capGet : Caps → Nat → String
  | [], _ => ""
  | (j, v) :: rest, i => if j = i then v else capGet rest i

/-- Character class `.` (Go default: any character except newline). -/
def dotClass (c : Char) : Bool := c ≠ '\n'

def charBetween (lo hi c : Char) : Bool := decide (lo ≤ c ∧ c ≤ hi)

/-- Character class `[a-zA-Z.]`. -/
def svcClass (c : Char) : Bool :=
  charBetween 'a' 'z' c || charBetween 'A' 'Z' c || c == '.'

/-- Character class `[0-9.]`. -/
def verClass (c : Char) : Bool := charBetween '0' '9' c || c == '.'

/-- Character class `[a-zA-Z/;]`. -/
def methClass (c : Char) : Bool :=
  charBetween 'a' 'z' c || charBetween 'A' 'Z' c || c == '/' || c == ';'

/-- The rpc.go path regexp `(.*)!([a-zA-Z.]+)([0-9.]+)([a-zA-Z/;]+)`. -/
def pathRegexp : RE :=
  RE.cat (RE.group 1 (RE.star (RE.cls dotClass)))
    (RE.cat (RE.cls (fun c => c == '!'))
      (RE.cat (RE.group 2 (RE.plus (RE.cls svcClass)))
        (RE.cat (RE.group 3 (RE.plus (RE.cls verClass)))
          (RE.group 4 (RE.plus (RE.cls methClass))))))

/-- Ample recursion fuel for searching a string of this length. -/
def regexFuel (s : String) : Nat := 32 * (s.length + 4)

/-- pathRegexp.FindStringSubmatch: `none` when there is no match,
otherwise the full match and the four capture groups (five components,
matching Go's `len(parseLine) == 5`). -/
def findStringSubmatch (s : String) :
    Option (String × String × String × String × String) :=
  match reSearch (regexFuel s) pathRegexp s.data with
  | none => none
  | some (st, rest, caps) =>
    some (String.mk (st.take (st.length - rest.length)),
      capGet caps 1, capGet caps 2, capGet caps 3, capGet caps 4)

/-! ## RPC plugin (src/pkg/plugins/protocols/rpc/rpc.go) -/

namespace Rpc

def measurementGroup : String := "application_rpc"

/-- Modelled from the spec: the framing-kind discriminator of the RPC
record (§6: u8, 0 = HTTP-like, 1 = Dubbo) is carried by the rpc ebpf
package's `RpcType` string, whose concrete constants are outside src;
only equality with `RPC_TYPE_DUBBO` matters to the converter. -/
def RPC_TYPE_DUBBO : String := "dubbo"

/-- The raw RPC event (rpcebpf.Metric) as read by rpc.go: path, status,
endpoints, duration and framing kind. -/
structure RMetric where
  path : String
  status : String
  srcIP : String
  srcPort : Nat
  dstIP : String
  dstPort : Nat
  duration : Nat
  rpcType : String
deriving DecidableEq

/-- The source-side tag block written by the second lookup in
convertRpc2Metric (rpc.go lines 184-195): tags added when
GetPodByUID(dstIP) succeeds, otherwise the tags are left unchanged. -/
def rpcSourceTags (env : KprobeEnv) (m : RMetric) (t : Tags) : Tags :=
  match env.getPodByUID m.dstIP with
  | none => t
  | some sourcePod =>
    let s1 := tset t "source_application_id" (labelGet sourcePod "DICE_APPLICATION_ID")
    let s2 := tset s1 "source_application_name" (labelGet sourcePod "DICE_APPLICATION_NAME")
    let s3 := tset s2 "source_org_id" (labelGet sourcePod "DICE_ORG_ID")
    let s4 := tset s3 "source_project_id" (labelGet sourcePod "DICE_PROJECT_ID")
    let s5 := tset s4 "source_project_name" (labelGet sourcePod "DICE_PROJECT_NAME")
    let s6 := tset s5 "source_runtime_id" (labelGet sourcePod "DICE_RUNTIME_ID")
    let s7 := tset s6 "source_runtime_name" (annGet sourcePod "msp.erda.cloud/runtime_name")
    let s8 := tset s7 "source_service_id"
      (labelGet sourcePod "DICE_APPLICATION_ID" ++ "_" ++
        annGet sourcePod "msp.erda.cloud/runtime_name" ++ "_" ++
        labelGet sourcePod "DICE_SERVICE_NAME")
    tset s8 "source_workspace" (annGet sourcePod "msp.erda.cloud/workspace")

/-- convertRpc2Metric (rpc.go lines 111-197).  `now` stands for
time.Now().UnixNano(). -/
def convertRpc2Metric (env : KprobeEnv) (now : Int) (m : RMetric) : Metric :=
  let fields : List (String × Nat) :=
    [("elapsed_count", 1), ("elapsed_sum", m.duration), ("elapsed_max", m.duration),
      ("elapsed_min", m.duration), ("elapsed_mean", m.duration)]
  let t1 := tset [] "metric_source" "ebpf"
  let t2 := tset t1 "_meta" "true"
  let t3 := tset t2 "_metric_scope" "micro_service"
  let parseLine := findStringSubmatch m.path
  let rpcTarget := match parseLine with
    | some (_, _, g2, _, g4) => g2 ++ "." ++ g4
    | none => m.path
  let rpcMethod := match parseLine with
    | some (_, _, _, _, g4) => g4
    | none => ""
  let rpcService := match parseLine with
    | some (_, _, g2, _, _) => g2
    | none => ""
  let rpcVersion := match parseLine with
    | some (_, g1, _, _, _) => g1
    | none => ""
  let serviceVersion := match parseLine with
    | some (_, _, _, g3, _) => g3
    | none => ""
  let t4 := tset t3 "rpc_target" rpcTarget
  match env.getPodByUID m.srcIP with
  | some targetPod =>
    let orgName := labelGet targetPod "DICE_ORG_NAME"
    let t5 := tset t4 "cluster_name" (labelGet targetPod "DICE_CLUSTER_NAME")
    let t6 := tset t5 "component" m.rpcType
    let t7 := tset t6 "db_host" (m.srcIP ++ ":" ++ toString m.srcPort)
    let t8 := tset t7 "method" m.path
    let t9 := tset t8 "_metric_scope_id" (annGet targetPod "msp.erda.cloud/terminus_key")
    let t10 :=
      if m.rpcType = RPC_TYPE_DUBBO then
        let d1 := tset t9 "dubbo_service" rpcService
        let d2 := tset d1 "dubbo_version" rpcVersion
        let d3 := tset d2 "dubbo_method" rpcMethod
        let d4 := tset d3 "service_version" serviceVersion
        if m.status = "20" then tset d4 "error" "false" else tset d4 "error" "true"
      else
        if m.status = "200" then tset t9 "error" "false" else tset t9 "error" "true"
    let t11 := tset t10 "host_ip" targetPod.hostIP
    let t12 := tset t11 "org_name" (labelGet targetPod "DICE_ORG_NAME")
    let t13 := tset t12 "peer_address" (m.dstIP ++ ":" ++ toString m.dstPort)
    let t14 := tset t13 "peer_service" m.path
    let t15 := tset t14 "rpc_method" (tget t14 "dubbo_method")
    let t16 := tset t15 "rpc_service" (tget t15 "dubbo_service")
    let t17 := tset t16 "span_kind" "server"
    let t18 := tset t17 "target_application_id" (labelGet targetPod "DICE_APPLICATION_ID")
    let t19 := tset t18 "target_application_name" (labelGet targetPod "DICE_APPLICATION_NAME")
    let t20 := tset t19 "target_org_id" (labelGet targetPod "DICE_ORG_ID")
    let t21 := tset t20 "target_project_id" (labelGet targetPod "DICE_PROJECT_ID")
    let t22 := tset t21 "target_project_name" (labelGet targetPod "DICE_PROJECT_NAME")
    let t23 := tset t22 "target_runtime_id" (labelGet targetPod "DICE_RUNTIME_ID")
    let t24 := tset t23 "target_runtime_name" (annGet targetPod "msp.erda.cloud/runtime_name")
    let t25 := tset t24 "target_service_id"
      (labelGet targetPod "DICE_APPLICATION_ID" ++ "_" ++
        annGet targetPod "msp.erda.cloud/runtime_name" ++ "_" ++
        labelGet targetPod "DICE_SERVICE_NAME")
    let t26 := tset t25 "target_service_instance_id" targetPod.uid
    let t27 := tset t26 "target_service_name" (annGet targetPod "msp.erda.cloud/service_name")
    let t28 := tset t27 "target_terminus_key" (annGet targetPod "msp.erda.cloud/terminus_key")
    let t29 := tset t28 "target_workspace" (annGet targetPod "msp.erda.cloud/workspace")
    { name := measurementGroup, measurement := measurementGroup, timestamp := now,
      orgName := orgName, tags := rpcSourceTags env m t29, fields := fields }
  | none =>
    { name := measurementGroup, measurement := measurementGroup, timestamp := now,
      orgName := "", tags := rpcSourceTags env m t4, fields := fields }

/-- One iteration of sendMetrics (rpc.go lines 97-109): events with empty
status or empty path are skipped; the rest are converted and sent. -/
def sendMetricsStep (env : KprobeEnv) (now : Int) (m : RMetric) : List Metric :=
  if m.status.length = 0 ∨ m.path.length = 0 then []
  else [convertRpc2Metric env now m]

/-! ### Probe registry (Gather, rpc.go lines 41-95)

The registry mapping is modelled by its key set, a duplicate-free list of
interface indices.  Loading a probe either succeeds (`loadOk` true for
that index) or fails; on failure rpc.go calls log.Fatalf, which
terminates the whole process — modelled as `none`. -/

/-- Go map assignment on the key set. -/
def mapInsert (probes : List Nat) (idx : Nat) : List Nat :=
  if idx ∈ probes then probes else probes ++ [idx]

inductive VethEventKind where
  | linkAdd
  | linkDelete
  | unknown
deriving DecidableEq

structure VethEvent where
  kind : VethEventKind
  index : Nat
  ip : String
deriving DecidableEq

/-- One iteration of Gather's event loop.  Returns the new key set and
how many probe loads were performed (0 or 1), or `none` when the process
aborted via log.Fatalf on a failed load. -/
def handleVethEvent (loadOk : Nat → Bool) (probes : List Nat) (e : VethEvent) :
    Option (List Nat × Nat) :=
  match e.kind with
  | VethEventKind.linkAdd =>
    if e.index ∈ probes then some (probes, 0)
    else if loadOk e.index then some (mapInsert probes e.index, 1)
    else none
  | VethEventKind.linkDelete =>
    some (probes.filter (fun i => i ≠ e.index), 0)
  | VethEventKind.unknown => some (probes, 0)

/-- Gather's event loop over a finite prefix of the event stream,
accumulating the number of probe loads performed. -/
def runEvents (loadOk : Nat → Bool) :
    List VethEvent → List Nat → Nat → Option (List Nat × Nat)
  | [], probes, loads => some (probes, loads)
  | e :: rest, probes, loads =>
    match handleVethEvent loadOk probes e with
    | none => none
    | some (p', n) => runEvents loadOk rest p' (loads + n)

/-- Gather's initial snapshot loop (rpc.go lines 53-61): load a probe for
every veth in the snapshot; a failed load calls log.Fatalf (`none`). -/
def gatherInit (loadOk : Nat → Bool) :
    List (Nat × String) → List Nat → Option (List Nat)
  | [], probes => some probes
  | (idx, _) :: rest, probes =>
    if loadOk idx then gatherInit loadOk rest (mapInsert probes idx)
    else none

end Rpc

/-! ## HTTP meta plugin (src/pkg/plugins/protocols/http/meta/provider.go) -/

namespace HttpMeta

def measurementGroup : String := "application_http"

def measurementGroupError : String := "application_http_error"

def measurementGroupDuration : String := "application_http_slow"

/-- The raw HTTP event (ebpf.Metric) as read by provider.go. -/
structure HMetric where
  method : String
  path : String
  version : String
  statusCode : Nat
  sourceIP : String
  destIP : String
  destPort : Nat
deriving DecidableEq

/-- The tag map built at output construction (provider.go lines 43-56). -/
def baseTags (m : HMetric) : Tags :=
  [("metric_source", "ebpf"),
    ("_meta", "true"),
    ("_metric_scope", "micro_service"),
    ("span_kind", "server"),
    ("http_method", m.method),
    ("http_path", m.path),
    ("http_status_code", toString m.statusCode),
    ("http_target", m.path),
    ("http_version", m.version),
    ("http_url", "http://" ++ m.destIP ++ ":" ++ toString m.destPort ++ m.path)]

/-- Measurement classification (provider.go lines 40, 60-62). -/
def httpMeasurement (m : HMetric) : String :=
  if m.statusCode > 200 then measurementGroupError else measurementGroup

/-- The metric returned when the target is a Pod (provider.go lines
94-133 followed by the final return). -/
def podTargetMetric (now : Int) (m : HMetric) (sourcePod t : Pod) : Metric :=
  let o1 := tset (baseTags m) "cluster_name" (labelGet t "DICE_CLUSTER_NAME")
  let o2 := tset o1 "db_host" (m.destIP ++ ":" ++ toString m.destPort)
  let o3 := tset o2 "org_name" (labelGet t "DICE_ORG_NAME")
  let o4 := tset o3 "peer_address" (tget o3 "db_host")
  let o5 := tset o4 "peer_hostname" ""
  let o6 := tset o5 "target_application_id" (labelGet t "DICE_APPLICATION_ID")
  let o7 := tset o6 "target_application_name" (labelGet t "DICE_APPLICATION_NAME")
  let o8 := tset o7 "target_org_id" (labelGet t "DICE_ORG_ID")
  let o9 := tset o8 "target_project_id" (labelGet t "DICE_PROJECT_ID")
  let o10 := tset o9 "target_project_name" (labelGet t "DICE_PROJECT_NAME")
  let o11 := tset o10 "target_runtime_id" (labelGet t "DICE_RUNTIME_ID")
  let o12 := tset o11 "target_runtime_name" (annGet t "msp.erda.cloud/runtime_name")
  let o13 := tset o12 "target_service_id"
    (labelGet t "DICE_APPLICATION_ID" ++ "_" ++
      annGet t "msp.erda.cloud/runtime_name" ++ "_" ++
      labelGet t "DICE_SERVICE_NAME")
  let o14 := tset o13 "target_service_instance_id" t.uid
  let o15 := tset o14 "target_service_name" (annGet t "msp.erda.cloud/service_name")
  let o16 := tset o15 "target_terminus_key" (annGet t "msp.erda.cloud/terminus_key")
  let o17 := tset o16 "target_workspace" (annGet t "msp.erda.cloud/workspace")
  let o18 := tset o17 "source_application_id" (labelGet sourcePod "DICE_APPLICATION_ID")
  let o19 := tset o18 "source_application_name" (labelGet sourcePod "DICE_APPLICATION_NAME")
  let o20 := tset o19 "source_org_id" (labelGet sourcePod "DICE_ORG_ID")
  let o21 := tset o20 "source_project_id" (labelGet sourcePod "DICE_PROJECT_ID")
  let o22 := tset o21 "source_project_name" (labelGet sourcePod "DICE_PROJECT_NAME")
  let o23 := tset o22 "source_runtime_id" (labelGet sourcePod "DICE_RUNTIME_ID")
  let o24 := tset o23 "source_runtime_name" (annGet sourcePod "msp.erda.cloud/runtime_name")
  let o25 := tset o24 "source_service_id"
    (labelGet sourcePod "DICE_APPLICATION_ID" ++ "_" ++
      annGet sourcePod "msp.erda.cloud/runtime_name" ++ "_" ++
      labelGet sourcePod "DICE_SERVICE_NAME")
  let o26 := tset o25 "source_service_instance_id" sourcePod.uid
  let o27 := tset o26 "source_service_name" (annGet sourcePod "msp.erda.cloud/service_name")
  let o28 := tset o27 "source_terminus_key" (annGet sourcePod "msp.erda.cloud/terminus_key")
  let o29 := tset o28 "source_workspace" (annGet sourcePod "msp.erda.cloud/workspace")
  { name := httpMeasurement m, measurement := httpMeasurement m, timestamp := now,
    orgName := tget o3 "org_name", tags := o29, fields := [] }

/-- The metric returned when the target is a Service (provider.go line
134: the case body only logs, so the output keeps exactly the tags built
at construction; OrgName keeps its zero value). -/
def serviceTargetMetric (now : Int) (m : HMetric) : Metric :=
  { name := httpMeasurement m, measurement := httpMeasurement m, timestamp := now,
    orgName := "", tags := baseTags m, fields := [] }

/-- Convert (provider.go lines 38-142).  `now` stands for
time.Now().UnixNano().  The target variable of type `any` holds either
the pod or the service found for destIP (provider.go lines 74-84) and the
runtime type switch on it is modelled by exhaustive cases (spec §9 design
note); `none` is the suppressed (nil) outcome. -/
def Convert (env : KprobeEnv) (now : Int) (m : HMetric) : Option Metric :=
  match env.getPodByUID m.sourceIP with
  | none => none
  | some sourcePod =>
    match env.getPodByUID m.destIP with
    | some pod => some (podTargetMetric now m sourcePod pod)
    | none =>
      match env.getService m.destIP with
      | some _ => some (serviceTargetMetric now m)
      | none => none

end HttpMeta

/-! ## Concrete fixtures used by witnesses and counterexamples -/

def podFix : Pod :=
  { labels := [("DICE_ORG_NAME", "erda"), ("DICE_CLUSTER_NAME", "cl1"),
      ("DICE_APPLICATION_ID", "app1")],
    anns := [("msp.erda.cloud/runtime_name", "rt1"),
      ("msp.erda.cloud/terminus_key", "tk1")],
    uid := "uid-1", hostIP := "192.168.0.1" }

def podFix2 : Pod :=
  { labels := [("DICE_APPLICATION_ID", "app2")], anns := [],
    uid := "uid-2", hostIP := "192.168.0.2" }

def svcFix : Service := { nsName := "default", svcName := "svc1" }

def envNone : KprobeEnv :=
  { getPodByUID := fun _ => none, getService := fun _ => none }

def envSrcPod : KprobeEnv :=
  { getPodByUID := fun ip => if ip = "10.0.0.1" then some podFix else none,
    getService := fun _ => none }

def envSrcPodDstSvc : KprobeEnv :=
  { getPodByUID := fun ip => if ip = "10.0.0.1" then some podFix else none,
    getService := fun ip => if ip = "10.0.0.2" then some svcFix else none }

def envBothPods : KprobeEnv :=
  { getPodByUID := fun ip =>
      if ip = "10.0.0.1" then some podFix
      else if ip = "10.0.0.2" then some podFix2
      else none,
    getService := fun _ => none }

def rmDubbo : Rpc.RMetric :=
  { path := "2.0.0!com.acme.Svc1.0.0/hello", status := "20",
    srcIP := "10.0.0.1", srcPort := 8080, dstIP := "10.0.0.2", dstPort := 9090,
    duration := 42, rpcType := Rpc.RPC_TYPE_DUBBO }

def rmPlain : Rpc.RMetric :=
  { path := "weird", status := "200",
    srcIP := "10.0.0.1", srcPort := 8080, dstIP := "10.0.0.2", dstPort := 9090,
    duration := 42, rpcType := "http" }

def hmFix : HttpMeta.HMetric :=
  { method := "GET", path := "/api", version := "HTTP/1.1", statusCode := 200,
    sourceIP := "10.0.0.1", destIP := "10.0.0.2", destPort := 8080 }

def addEvt (i : Nat) : Rpc.VethEvent :=
  { kind := Rpc.VethEventKind.linkAdd, index := i, ip := "10.0.0.3" }

/-! ## Helper lemmas -/

lemma string_length_eq_zero {s : String} : s.length = 0 ↔ s = "" := by
  cases s with
  | mk data =>
    cases data with
    | nil => simp
    | cons c cs =>
      constructor
      · intro h
        simp [String.length] at h
      · intro h
        exact absurd (congrArg String.data h) (by simp)

/-- Once an index is in the registry mapping, any number of further Add
events for it changes nothing and performs no loads. -/
lemma runEvents_replicate_mem (loadOk : Nat → Bool) (e : Rpc.VethEvent)
    (h1 : e.kind = Rpc.VethEventKind.linkAdd) :
    ∀ (n : Nat) (probes : List Nat) (L : Nat), e.index ∈ probes →
      Rpc.runEvents loadOk (List.replicate n e) probes L = some (probes, L) := by
  intro n
  induction n with
  | zero => intro probes L _; simp [Rpc.runEvents]
  | succ k ih =>
    intro probes L h
    rw [List.replicate_succ]
    simp only [Rpc.runEvents, Rpc.handleVethEvent, h1, if_pos h]
    simpa using ih probes L h

/-! ## Claims -/

/-- Claim C1 (counterexample).  The claim says a failed probe load is
logged and the registry loop continues, other probes staying functional.
In rpc.go a failed load calls log.Fatalf (lines 55-57 and 76-78), which
terminates the whole process: with probe 7 loaded and every load failing,
the Add(1) event aborts the loop (no further event is processed and no
final mapping exists), and the initial snapshot loop aborts likewise. -/
theorem rpc_gather_load_failure_aborts_cex :
    Rpc.runEvents (fun _ => false) [addEvt 1, addEvt 2] [7] 0 = none ∧
    Rpc.gatherInit (fun _ => false) [(1, "10.0.0.3")] [7] = none := by
  decide

/-- Claim C1 (corrected).  For every interface descriptor whose probe
load fails, Gather calls log.Fatalf and the process aborts: the event
loop processes no further events (and the snapshot loop behaves the same
way), instead of logging and continuing. -/
theorem rpc_gather_load_failure_aborts (loadOk : Nat → Bool)
    (e : Rpc.VethEvent) (rest : List Rpc.VethEvent) (probes : List Nat)
    (idx : Nat) (ip : String) (snap : List (Nat × String)) (probes2 : List Nat)
    (h1 : e.kind = Rpc.VethEventKind.linkAdd) (h2 : e.index ∉ probes)
    (h3 : loadOk e.index = false) (h4 : loadOk idx = false) :
    Rpc.runEvents loadOk (e :: rest) probes 0 = none ∧
    Rpc.gatherInit loadOk ((idx, ip) :: snap) probes2 = none := by
  constructor
  · simp [Rpc.runEvents, Rpc.handleVethEvent, h1, h2, h3]
  · simp [Rpc.gatherInit, h4]

/-- Claim C1 (witness for the corrected claim). -/
theorem rpc_gather_load_failure_aborts_witness :
    Rpc.runEvents (fun _ => false) [addEvt 5] [] 0 = none ∧
    Rpc.gatherInit (fun _ => false) [(3, "ip")] [] = none :=
  rpc_gather_load_failure_aborts (fun _ => false) (addEvt 5) [] [] 3 "ip" [] []
    rfl (by decide) rfl rfl

/-- Claim C8 (confirmed).  Attach is idempotent: an Add for an index
already in the mapping performs no load and leaves the mapping unchanged,
and any number of repeated Adds of a fresh descriptor loads exactly one
probe. -/
theorem rpc_registry_add_idempotent (loadOk : Nat → Bool)
    (e : Rpc.VethEvent) (probes : List Nat) (n : Nat)
    (h1 : e.kind = Rpc.VethEventKind.linkAdd) :
    (e.index ∈ probes →
      Rpc.handleVethEvent loadOk probes e = some (probes, 0)) ∧
    (e.index ∉ probes → loadOk e.index = true →
      Rpc.runEvents loadOk (List.replicate (n + 1) e) probes 0 =
        some (probes ++ [e.index], 1)) := by
  constructor
  · intro h
    simp [Rpc.handleVethEvent, h1, h]
  · intro h hl
    rw [List.replicate_succ]
    simp only [Rpc.runEvents, Rpc.handleVethEvent, h1, if_neg h, hl, if_true,
      Rpc.mapInsert]
    simpa using runEvents_replicate_mem loadOk e h1 n (probes ++ [e.index]) 1
      (by simp)

/-- Claim C8 (witness): three Adds of interface 1 from the empty mapping
perform exactly one load. -/
theorem rpc_registry_add_idempotent_witness :
    Rpc.runEvents (fun _ => true) (List.replicate 3 (addEvt 1)) [] 0 =
      some ([1], 1) :=
  (rpc_registry_add_idempotent (fun _ => true) (addEvt 1) [] 2 rfl).2
    (by decide) rfl

/-- Claim C9 (confirmed).  sendMetrics silently skips an RPC event whose
status or path is empty, and converts and sends every event with both
non-empty. -/
theorem rpc_send_skip_empty (env : KprobeEnv) (now : Int) (m : Rpc.RMetric) :
    (m.status = "" ∨ m.path = "" → Rpc.sendMetricsStep env now m = []) ∧
    (m.status ≠ "" → m.path ≠ "" →
      Rpc.sendMetricsStep env now m = [Rpc.convertRpc2Metric env now m]) := by
  constructor
  · intro h
    rcases h with h | h <;> simp [Rpc.sendMetricsStep, string_length_eq_zero, h]
  · intro h1 h2
    simp [Rpc.sendMetricsStep, string_length_eq_zero, h1, h2]

/-- Claim C9 (witness): an event with empty status is skipped, and a
dubbo event with both fields set is sent converted. -/
theorem rpc_send_skip_empty_witness :
    Rpc.sendMetricsStep envNone 0
        { path := "p", status := "", srcIP := "", srcPort := 0, dstIP := "",
          dstPort := 0, duration := 0, rpcType := "http" } = [] ∧
    Rpc.sendMetricsStep envSrcPod 7 rmDubbo =
      [Rpc.convertRpc2Metric envSrcPod 7 rmDubbo] :=
  ⟨(rpc_send_skip_empty envNone 0 _).1 (Or.inl rfl),
    (rpc_send_skip_empty envSrcPod 7 rmDubbo).2 (by decide) (by decide)⟩

/-- Claim C2 (confirmed).  For every non-suppressed HTTP raw event the
emitted metric's measurement and name are application_http when
status_code ≤ 200 and application_http_error when status_code > 200. -/
theorem http_classification (env : KprobeEnv) (now : Int) (m : HttpMeta.HMetric)
    (out : Metric) (h : HttpMeta.Convert env now m = some out) :
    (m.statusCode ≤ 200 →
      out.measurement = "application_http" ∧ out.name = "application_http") ∧
    (200 < m.statusCode →
      out.measurement = "application_http_error" ∧
        out.name = "application_http_error") := by
  cases hsrc : env.getPodByUID m.sourceIP with
  | none => simp [HttpMeta.Convert, hsrc] at h
  | some sp =>
    cases hdst : env.getPodByUID m.destIP with
    | some t =>
      simp only [HttpMeta.Convert, hsrc, hdst, Option.some.injEq] at h
      subst h
      constructor
      · intro hc
        simp [HttpMeta.podTargetMetric, HttpMeta.httpMeasurement,
          HttpMeta.measurementGroup, HttpMeta.measurementGroupError,
          Nat.not_lt.mpr hc]
      · intro hc
        simp [HttpMeta.podTargetMetric, HttpMeta.httpMeasurement,
          HttpMeta.measurementGroupError, hc]
    | none =>
      cases hsvc : env.getService m.destIP with
      | some s =>
        simp only [HttpMeta.Convert, hsrc, hdst, hsvc, Option.some.injEq] at h
        subst h
        constructor
        · intro hc
          simp [HttpMeta.serviceTargetMetric, HttpMeta.httpMeasurement,
            HttpMeta.measurementGroup, HttpMeta.measurementGroupError,
            Nat.not_lt.mpr hc]
        · intro hc
          simp [HttpMeta.serviceTargetMetric, HttpMeta.httpMeasurement,
            HttpMeta.measurementGroupError, hc]
      | none => simp [HttpMeta.Convert, hsrc, hdst, hsvc] at h

/-- Claim C2 (witness): a pod-to-pod event with status 200 is classified
as application_http. -/
theorem http_classification_witness :
    (HttpMeta.podTargetMetric 0 hmFix podFix podFix2).measurement =
      "application_http" :=
  ((http_classification envBothPods 0 hmFix _ (by decide)).1 (by decide)).1

/-- Claim C4 (confirmed).  Convert returns the suppressed (nil) outcome
exactly when the source-pod lookup fails, or both the destination pod and
destination service lookups fail; in every other case a metric is
emitted. -/
theorem http_suppression_iff (env : KprobeEnv) (now : Int) (m : HttpMeta.HMetric) :
    HttpMeta.Convert env now m = none ↔
      (env.getPodByUID m.sourceIP = none ∨
        (env.getPodByUID m.destIP = none ∧ env.getService m.destIP = none)) := by
  cases hsrc : env.getPodByUID m.sourceIP <;>
    cases hdst : env.getPodByUID m.destIP <;>
      cases hsvc : env.getService m.destIP <;>
        simp [HttpMeta.Convert, hsrc, hdst, hsvc]

/-- Claim C7 (counterexample).  The claim says the metric emitted for a
Service target carries the source_* tag block.  With the source pod
resolved and the destination resolving only to a service, Convert does
emit a metric, but that metric has no source_application_id tag (the
Service arm of the type switch only logs and adds nothing). -/
theorem http_service_target_cex :
    (HttpMeta.Convert envSrcPodDstSvc 0 hmFix).map
        (fun o => tlookup o.tags "source_application_id") = some none ∧
    (HttpMeta.Convert envSrcPodDstSvc 0 hmFix).map
        (fun o => tlookup o.tags "source_service_id") = some none := by
  decide

/-- Claim C7 (corrected).  For every HTTP event whose source pod resolves
and whose destination resolves to a Service (pod lookup NotFound, service
lookup succeeds), Convert emits a metric whose tags are exactly the tag
set built at construction: no source_* and no target_* tags are added. -/
theorem http_service_target (env : KprobeEnv) (now : Int) (m : HttpMeta.HMetric)
    (sp : Pod) (svc : Service)
    (h1 : env.getPodByUID m.sourceIP = some sp)
    (h2 : env.getPodByUID m.destIP = none)
    (h3 : env.getService m.destIP = some svc) :
    HttpMeta.Convert env now m = some (HttpMeta.serviceTargetMetric now m) ∧
    (HttpMeta.serviceTargetMetric now m).tags = HttpMeta.baseTags m ∧
    tlookup (HttpMeta.serviceTargetMetric now m).tags "source_application_id" =
      none ∧
    tlookup (HttpMeta.serviceTargetMetric now m).tags "target_application_id" =
      none := by
  refine ⟨?_, rfl, ?_, ?_⟩ <;>
    simp [HttpMeta.Convert, h1, h2, h3, HttpMeta.serviceTargetMetric,
      HttpMeta.baseTags, tlookup]

/-- Claim C7 (witness for the corrected claim). -/
theorem http_service_target_witness :
    HttpMeta.Convert envSrcPodDstSvc 0 hmFix =
      some (HttpMeta.serviceTargetMetric 0 hmFix) :=
  (http_service_target envSrcPodDstSvc 0 hmFix podFix svcFix
    (by decide) (by decide) (by decide)).1

/-- Claim C10 (confirmed).  Every non-suppressed HTTP event yields a
metric with http_target = http_path = path and
http_url = "http://" ++ destIP ++ ":" ++ destPort ++ path. -/
theorem http_url_tags (env : KprobeEnv) (now : Int) (m : HttpMeta.HMetric)
    (out : Metric) (h : HttpMeta.Convert env now m = some out) :
    tlookup out.tags "http_target" = some m.path ∧
    tlookup out.tags "http_path" = some m.path ∧
    tlookup out.tags "http_url" =
      some ("http://" ++ m.destIP ++ ":" ++ toString m.destPort ++ m.path) := by
  cases hsrc : env.getPodByUID m.sourceIP with
  | none => simp [HttpMeta.Convert, hsrc] at h
  | some sp =>
    cases hdst : env.getPodByUID m.destIP with
    | some t =>
      simp only [HttpMeta.Convert, hsrc, hdst, Option.some.injEq] at h
      subst h
      simp [HttpMeta.podTargetMetric, HttpMeta.baseTags, tset, tlookup]
    | none =>
      cases hsvc : env.getService m.destIP with
      | some s =>
        simp only [HttpMeta.Convert, hsrc, hdst, hsvc, Option.some.injEq] at h
        subst h
        simp [HttpMeta.serviceTargetMetric, HttpMeta.baseTags, tlookup]
      | none => simp [HttpMeta.Convert, hsrc, hdst, hsvc] at h

/-- Claim C10 (witness). -/
theorem http_url_tags_witness :
    tlookup (HttpMeta.podTargetMetric 0 hmFix podFix podFix2).tags "http_url" =
      some ("http://" ++ hmFix.destIP ++ ":" ++ toString hmFix.destPort ++
        hmFix.path) :=
  (http_url_tags envBothPods 0 hmFix _ (by decide)).2.2

/-- Claim C3 (counterexample).  The claim says that on a regex match the
emitted metric has rpc_version = g1 (among others).  For the matching
dubbo path with the source-side pod resolved, the regex yields
g1 = "2.0.0" but the metric carries no rpc_version tag at all (the code
only writes dubbo_version). -/
theorem rpc_path_tags_cex :
    findStringSubmatch rmDubbo.path =
      some ("2.0.0!com.acme.Svc1.0.0/hello", "2.0.0", "com.acme.Svc",
        "1.0.0", "/hello") ∧
    tlookup (Rpc.convertRpc2Metric envSrcPod 0 rmDubbo).tags "rpc_version" =
      none := by
  decide

/-- Claim C3 (corrected).  When the regex matches with five components,
rpc_target = g2 ++ "." ++ g4 is always tagged, no rpc_version tag is ever
written, and the remaining derived tags appear only when the src-ip pod
lookup succeeds: under Dubbo framing rpc_service = g2, rpc_method = g4,
dubbo_version = g1 and service_version = g3, under any other framing
rpc_service and rpc_method are the empty string.  When the regex does not
match, rpc_target = path, and rpc_service/rpc_method are the empty string
when the src-ip pod lookup succeeds and absent when it fails. -/
theorem rpc_path_tags (env : KprobeEnv) (now : Int) (m : Rpc.RMetric) :
    (∀ g0 g1 g2 g3 g4,
      findStringSubmatch m.path = some (g0, g1, g2, g3, g4) →
      tlookup (Rpc.convertRpc2Metric env now m).tags "rpc_target" =
        some (g2 ++ "." ++ g4) ∧
      tlookup (Rpc.convertRpc2Metric env now m).tags "rpc_version" = none ∧
      (∀ p, env.getPodByUID m.srcIP = some p →
        (m.rpcType = Rpc.RPC_TYPE_DUBBO →
          tlookup (Rpc.convertRpc2Metric env now m).tags "rpc_service" =
            some g2 ∧
          tlookup (Rpc.convertRpc2Metric env now m).tags "rpc_method" =
            some g4 ∧
          tlookup (Rpc.convertRpc2Metric env now m).tags "dubbo_version" =
            some g1 ∧
          tlookup (Rpc.convertRpc2Metric env now m).tags "service_version" =
            some g3) ∧
        (¬ m.rpcType = Rpc.RPC_TYPE_DUBBO →
          tlookup (Rpc.convertRpc2Metric env now m).tags "rpc_service" =
            some "" ∧
          tlookup (Rpc.convertRpc2Metric env now m).tags "rpc_method" =
            some ""))) ∧
    (findStringSubmatch m.path = none →
      tlookup (Rpc.convertRpc2Metric env now m).tags "rpc_target" =
        some m.path ∧
      (∀ p, env.getPodByUID m.srcIP = some p →
        tlookup (Rpc.convertRpc2Metric env now m).tags "rpc_service" =
          some "" ∧
        tlookup (Rpc.convertRpc2Metric env now m).tags "rpc_method" =
          some "") ∧
      (env.getPodByUID m.srcIP = none →
        tlookup (Rpc.convertRpc2Metric env now m).tags "rpc_service" = none ∧
        tlookup (Rpc.convertRpc2Metric env now m).tags "rpc_method" = none)) := by
  constructor
  · intro g0 g1 g2 g3 g4 hparse
    refine ⟨?_, ?_, ?_⟩
    · cases hpod : env.getPodByUID m.srcIP with
      | none =>
        cases hdst : env.getPodByUID m.dstIP <;>
          simp [Rpc.convertRpc2Metric, Rpc.rpcSourceTags, hparse, hpod, hdst,
            tset, tget, tlookup]
      | some p =>
        by_cases hdub : m.rpcType = Rpc.RPC_TYPE_DUBBO
        · by_cases hst : m.status = "20" <;>
            cases hdst : env.getPodByUID m.dstIP <;>
              simp [Rpc.convertRpc2Metric, Rpc.rpcSourceTags, hparse, hpod,
                hdub, hst, hdst, tset, tget, tlookup]
        · by_cases hst : m.status = "200" <;>
            cases hdst : env.getPodByUID m.dstIP <;>
              simp [Rpc.convertRpc2Metric, Rpc.rpcSourceTags, hparse, hpod,
                hdub, hst, hdst, tset, tget, tlookup]
    · cases hpod : env.getPodByUID m.srcIP with
      | none =>
        cases hdst : env.getPodByUID m.dstIP <;>
          simp [Rpc.convertRpc2Metric, Rpc.rpcSourceTags, hparse, hpod, hdst,
            tset, tget, tlookup]
      | some p =>
        by_cases hdub : m.rpcType = Rpc.RPC_TYPE_DUBBO
        · by_cases hst : m.status = "20" <;>
            cases hdst : env.getPodByUID m.dstIP <;>
              simp [Rpc.convertRpc2Metric, Rpc.rpcSourceTags, hparse, hpod,
                hdub, hst, hdst, tset, tget, tlookup]
        · by_cases hst : m.status = "200" <;>
            cases hdst : env.getPodByUID m.dstIP <;>
              simp [Rpc.convertRpc2Metric, Rpc.rpcSourceTags, hparse, hpod,
                hdub, hst, hdst, tset, tget, tlookup]
    · intro p hpod
      constructor
      · intro hdub
        by_cases hst : m.status = "20" <;>
          cases hdst : env.getPodByUID m.dstIP <;>
            simp [Rpc.convertRpc2Metric, Rpc.rpcSourceTags, hparse, hpod, hdub,
              hst, hdst, tset, tget, tlookup]
      · intro hdub
        by_cases hst : m.status = "200" <;>
          cases hdst : env.getPodByUID m.dstIP <;>
            simp [Rpc.convertRpc2Metric, Rpc.rpcSourceTags, hparse, hpod, hdub,
              hst, hdst, tset, tget, tlookup]
  · intro hparse
    refine ⟨?_, ?_, ?_⟩
    · cases hpod : env.getPodByUID m.srcIP with
      | none =>
        cases hdst : env.getPodByUID m.dstIP <;>
          simp [Rpc.convertRpc2Metric, Rpc.rpcSourceTags, hparse, hpod, hdst,
            tset, tget, tlookup]
      | some p =>
        by_cases hdub : m.rpcType = Rpc.RPC_TYPE_DUBBO
        · by_cases hst : m.status = "20" <;>
            cases hdst : env.getPodByUID m.dstIP <;>
              simp [Rpc.convertRpc2Metric, Rpc.rpcSourceTags, hparse, hpod,
                hdub, hst, hdst, tset, tget, tlookup]
        · by_cases hst : m.status = "200" <;>
            cases hdst : env.getPodByUID m.dstIP <;>
              simp [Rpc.convertRpc2Metric, Rpc.rpcSourceTags, hparse, hpod,
                hdub, hst, hdst, tset, tget, tlookup]
    · intro p hpod
      by_cases hdub : m.rpcType = Rpc.RPC_TYPE_DUBBO
      · by_cases hst : m.status = "20" <;>
          cases hdst : env.getPodByUID m.dstIP <;>
            simp [Rpc.convertRpc2Metric, Rpc.rpcSourceTags, hparse, hpod, hdub,
              hst, hdst, tset, tget, tlookup]
      · by_cases hst : m.status = "200" <;>
          cases hdst : env.getPodByUID m.dstIP <;>
            simp [Rpc.convertRpc2Metric, Rpc.rpcSourceTags, hparse, hpod, hdub,
              hst, hdst, tset, tget, tlookup]
    · intro hpod
      cases hdst : env.getPodByUID m.dstIP <;>
        simp [Rpc.convertRpc2Metric, Rpc.rpcSourceTags, hparse, hpod, hdst,
          tset, tget, tlookup]

/-- Claim C3 (witness for the corrected claim): on the matching dubbo
path with the source-side pod resolved, rpc_target is g2 ++ "." ++ g4. -/
theorem rpc_path_tags_witness :
    tlookup (Rpc.convertRpc2Metric envSrcPod 0 rmDubbo).tags "rpc_target" =
      some ("com.acme.Svc" ++ "." ++ "/hello") :=
  ((rpc_path_tags envSrcPod 0 rmDubbo).1 "2.0.0!com.acme.Svc1.0.0/hello"
    "2.0.0" "com.acme.Svc" "1.0.0" "/hello" (by decide)).1

/-- Claim C5 (counterexample).  The claim says the error tag is "false"
exactly when (Dubbo ∧ status "20") or (non-Dubbo ∧ status "200") and
"true" otherwise, for every event that yields a metric.  rmDubbo has
Dubbo framing and status "20" and (having non-empty status and path) does
yield a metric, yet with no pod resolved for its src-ip the metric
carries no error tag at all — neither "false" nor "true". -/
theorem rpc_error_tag_cex :
    rmDubbo.rpcType = Rpc.RPC_TYPE_DUBBO ∧ rmDubbo.status = "20" ∧
    Rpc.sendMetricsStep envNone 0 rmDubbo =
      [Rpc.convertRpc2Metric envNone 0 rmDubbo] ∧
    tlookup (Rpc.convertRpc2Metric envNone 0 rmDubbo).tags "error" = none := by
  decide

/-- Claim C5 (corrected).  The error tag is written only when the src-ip
pod lookup succeeds; in that case it is "false" exactly when
(Dubbo ∧ status = "20") ∨ (non-Dubbo ∧ status = "200") and "true"
otherwise, and when the lookup fails the metric has no error tag. -/
theorem rpc_error_tag (env : KprobeEnv) (now : Int) (m : Rpc.RMetric) :
    (∀ p, env.getPodByUID m.srcIP = some p →
      tlookup (Rpc.convertRpc2Metric env now m).tags "error" =
        (if (m.rpcType = Rpc.RPC_TYPE_DUBBO ∧ m.status = "20") ∨
            (¬ m.rpcType = Rpc.RPC_TYPE_DUBBO ∧ m.status = "200")
          then some "false" else some "true")) ∧
    (env.getPodByUID m.srcIP = none →
      tlookup (Rpc.convertRpc2Metric env now m).tags "error" = none) := by
  constructor
  · intro p hp
    by_cases hdub : m.rpcType = Rpc.RPC_TYPE_DUBBO
    · by_cases hst : m.status = "20" <;>
        cases hdst : env.getPodByUID m.dstIP <;>
          simp [Rpc.convertRpc2Metric, Rpc.rpcSourceTags, hp, hdst, hdub, hst,
            tset, tget, tlookup]
    · by_cases hst : m.status = "200" <;>
        cases hdst : env.getPodByUID m.dstIP <;>
          simp [Rpc.convertRpc2Metric, Rpc.rpcSourceTags, hp, hdst, hdub, hst,
            tset, tget, tlookup]
  · intro hp
    cases hdst : env.getPodByUID m.dstIP <;>
      simp [Rpc.convertRpc2Metric, Rpc.rpcSourceTags, hp, hdst, tset, tget,
        tlookup]

/-- Claim C5 (witness for the corrected claim): dubbo with status "20"
and a resolved pod gets error = "false". -/
theorem rpc_error_tag_witness :
    tlookup (Rpc.convertRpc2Metric envSrcPod 0 rmDubbo).tags "error" =
      some "false" :=
  (rpc_error_tag envSrcPod 0 rmDubbo).1 podFix (by decide)

/-- Claim C6 (counterexample).  The claim says every metric emitted by
the enricher — on the RPC path too — carries span_kind = server.  rmDubbo
with no pod resolved is converted and sent by sendMetrics, yet the
emitted metric has no span_kind tag (rpc.go sets it only inside the
src-ip pod branch). -/
theorem enricher_common_tags_cex :
    Rpc.sendMetricsStep envNone 0 rmDubbo =
      [Rpc.convertRpc2Metric envNone 0 rmDubbo] ∧
    tlookup (Rpc.convertRpc2Metric envNone 0 rmDubbo).tags "span_kind" =
      none := by
  decide

/-- Claim C6 (corrected).  Every metric emitted by the HTTP Convert path
carries metric_source=ebpf, _meta=true, _metric_scope=micro_service and
span_kind=server; every RPC metric carries the first three, but
span_kind=server only when the src-ip pod lookup succeeds, and no
span_kind tag when it fails. -/
theorem enricher_common_tags (env : KprobeEnv) (now : Int)
    (hm : HttpMeta.HMetric) (rm : Rpc.RMetric) :
    (∀ out, HttpMeta.Convert env now hm = some out →
      tlookup out.tags "metric_source" = some "ebpf" ∧
      tlookup out.tags "_meta" = some "true" ∧
      tlookup out.tags "_metric_scope" = some "micro_service" ∧
      tlookup out.tags "span_kind" = some "server") ∧
    (tlookup (Rpc.convertRpc2Metric env now rm).tags "metric_source" =
        some "ebpf" ∧
      tlookup (Rpc.convertRpc2Metric env now rm).tags "_meta" = some "true" ∧
      tlookup (Rpc.convertRpc2Metric env now rm).tags "_metric_scope" =
        some "micro_service") ∧
    (∀ p, env.getPodByUID rm.srcIP = some p →
      tlookup (Rpc.convertRpc2Metric env now rm).tags "span_kind" =
        some "server") ∧
    (env.getPodByUID rm.srcIP = none →
      tlookup (Rpc.convertRpc2Metric env now rm).tags "span_kind" = none) := by
  refine ⟨?_, ?_, ?_, ?_⟩
  · intro out h
    cases hsrc : env.getPodByUID hm.sourceIP with
    | none => simp [HttpMeta.Convert, hsrc] at h
    | some sp =>
      cases hdst : env.getPodByUID hm.destIP with
      | some t =>
        simp only [HttpMeta.Convert, hsrc, hdst, Option.some.injEq] at h
        subst h
        simp [HttpMeta.podTargetMetric, HttpMeta.baseTags, tset, tlookup]
      | none =>
        cases hsvc : env.getService hm.destIP with
        | some s =>
          simp only [HttpMeta.Convert, hsrc, hdst, hsvc, Option.some.injEq] at h
          subst h
          simp [HttpMeta.serviceTargetMetric, HttpMeta.baseTags, tlookup]
        | none => simp [HttpMeta.Convert, hsrc, hdst, hsvc] at h
  · cases hpod : env.getPodByUID rm.srcIP with
    | none =>
      cases hdst : env.getPodByUID rm.dstIP <;>
        simp [Rpc.convertRpc2Metric, Rpc.rpcSourceTags, hpod, hdst, tset, tget,
          tlookup]
    | some p =>
      by_cases hdub : rm.rpcType = Rpc.RPC_TYPE_DUBBO
      · by_cases hst : rm.status = "20" <;>
          cases hdst : env.getPodByUID rm.dstIP <;>
            simp [Rpc.convertRpc2Metric, Rpc.rpcSourceTags, hpod, hdub, hst,
              hdst, tset, tget, tlookup]
      · by_cases hst : rm.status = "200" <;>
          cases hdst : env.getPodByUID rm.dstIP <;>
            simp [Rpc.convertRpc2Metric, Rpc.rpcSourceTags, hpod, hdub, hst,
              hdst, tset, tget, tlookup]
  · intro p hpod
    by_cases hdub : rm.rpcType = Rpc.RPC_TYPE_DUBBO
    · by_cases hst : rm.status = "20" <;>
        cases hdst : env.getPodByUID rm.dstIP <;>
          simp [Rpc.convertRpc2Metric, Rpc.rpcSourceTags, hpod, hdub, hst, hdst,
            tset, tget, tlookup]
    · by_cases hst : rm.status = "200" <;>
        cases hdst : env.getPodByUID rm.dstIP <;>
          simp [Rpc.convertRpc2Metric, Rpc.rpcSourceTags, hpod, hdub, hst, hdst,
            tset, tget, tlookup]
  · intro hpod
    cases hdst : env.getPodByUID rm.dstIP <;>
      simp [Rpc.convertRpc2Metric, Rpc.rpcSourceTags, hpod, hdst, tset, tget,
        tlookup]

/-- Claim C6 (witness for the corrected claim): the HTTP pod-to-pod
metric carries span_kind = server. -/
theorem enricher_common_tags_witness :
    tlookup (HttpMeta.podTargetMetric 0 hmFix podFix podFix2).tags
      "span_kind" = some "server" :=
  ((enricher_common_tags envBothPods 0 hmFix rmDubbo).1 _ (by decide)).2.2.2

end ErdaAgent
